import Mathlib

/-!
Verification of the radio-configuration derivation in `profile.py` of the
POWDER over-the-air srsLTE profile.  The Python script fixes a downlink
frequency, validates it against LTE band 7, derives the EARFCN, looks up a
channel-bandwidth profile, registers two spectrum reservations and appends a
`channel_setup-...` install token.  We embed that computation shallowly:
frequencies are rationals, Python's `round` is round-half-to-even on ℚ (no
input considered here lands on an exact half, so the tie-breaking mode is
immaterial), Python exceptions become an explicit error field, and the
script's side effects (spectrum reservations, install list, node creation)
are collected in an explicit result record.
-/

set_option maxRecDepth 2000

namespace OtaSrslte

/-- Floor of a rational number, computed by floored integer division of the
numerator by the (positive) denominator. -/
def ratFloor (q : ℚ) : ℤ := Int.fdiv q.num q.den

/-- Python's `round` on the rationals: round to the nearest integer, ties to
even. -/
def pyRound (q : ℚ) : ℤ :=
  let f := ratFloor q
  let frac := q - (f : ℚ)
  if frac < 1/2 then f
  else if 1/2 < frac then f + 1
  else if f % 2 = 0 then f else f + 1

/-- One row of the static `channel_bandwidths` table of `profile.py`:
number of physical resource blocks, channel width in MHz, uplink amplitude
and downlink gain. -/
structure ChannelProfile where
  n_prb : ℕ
  bandwidth : ℚ
  ul_amp : ℚ
  dl_gain : ℚ
deriving DecidableEq

/-- The selector choices offered for the LTE channel bandwidth parameter
(`channel_bandwidth_strings` in `profile.py`): pairs of code and display
label. -/
def channel_bandwidth_strings : List (String × String) :=
  [("1.4", "1.4 MHz"),
   ("3", "3 MHz"),
   ("5", "5 MHz"),
   ("10", "10 MHz")]

/-- The static channel-profile table (`channel_bandwidths` in `profile.py`),
keyed by the bandwidth code string. -/
def channel_bandwidths : List (String × ChannelProfile) :=
  [("1.4", ⟨6, 1.4, 0.5, 0.20⟩),
   ("3", ⟨15, 3, 0.5, 0.20⟩),
   ("5", ⟨25, 5, 0.5, 0.20⟩),
   ("10", ⟨50, 10, 0.5, 0.20⟩),
   ("15", ⟨75, 15, 0.5, 0.20⟩),
   ("20", ⟨100, 20, 0.5, 0.20⟩)]

/-- Dictionary lookup `channel_bandwidths[channel_bandwidth_str]`; `none`
models Python's `KeyError`. -/
def lookupProfile (code : String) : Option ChannelProfile :=
  (channel_bandwidths.find? (fun kv => kv.1 == code)).map Prod.snd

/-- The two ways the script can raise before building the request: the two
explicit band-7 range exceptions (with their message), and the `KeyError`
from an unknown bandwidth code. -/
inductive ConfigError where
  | OutOfBandFrequency (msg : String)
  | UnknownChannelCode (code : String)
deriving DecidableEq

/-- The derived configuration record: EARFCN, resource-block count, uplink
amplitude, downlink gain and the two spectrum windows, as computed on lines
283-291 of `profile.py`. -/
structure DerivedConfig where
  earfcn : ℤ
  n_prb : ℕ
  ul_amp : ℚ
  dl_gain : ℚ
  low_downlink_frequency : ℚ
  high_downlink_frequency : ℚ
  low_uplink_frequency : ℚ
  high_uplink_frequency : ℚ
deriving DecidableEq

/-- The observable outcome of one run of the script body: the derived
configuration (if reached), the exception raised (if any), the spectrum
reservations registered via `request.requestSpectrum` in order, the install
argument list, and the names of the nodes added to the request. -/
structure RunResult where
  config : Option DerivedConfig
  error : Option ConfigError
  reservations : List (ℚ × ℚ × ℤ)
  installs : List String
  nodes : List String
deriving DecidableEq

/-- Decimal rendering of a non-negative rational that is an integer multiple
of one tenth, matching how Python's string formatting renders the float
table entries `0.5` and `0.20` (as `0.5` and `0.2`). -/
def tenthsStr (q : ℚ) : String :=
  let t : ℤ := (q * 10).num
  toString (t / 10) ++ "." ++ toString (t % 10)

/-- Names of the nodes created by `x310_node_pair` for one X310 radio: the
`-comp` compute node and the `-x310` radio node. -/
def x310_node_pair_nodes (radio_name : String) : List String :=
  [radio_name ++ "-comp", radio_name ++ "-x310"]

/-- Name of the node created by `b210_nuc_pair` for one B210 entry
(aggregate id, component id). -/
def b210_nuc_pair_node_name (aggregate_id component_id : String) : String :=
  "b210-" ++ aggregate_id ++ "-" ++ component_id

/-- The fixed downlink frequency of `profile.py` (line 269), in MHz. -/
def downlink_frequency : ℚ := 2685.0

/-- The script body of `profile.py` (lines 261-307) as a function of the
downlink frequency, the selected bandwidth code, and the bound node
parameters: installs start as `["srslte", "gnuradio"]`; `centi_khz` is the
rounded frequency in hundredths of kHz; frequencies outside `[26200, 26899]`
raise before anything else happens; the EARFCN is `centi_khz - 26200 + 2750`;
the profile lookup may raise `KeyError`; then the downlink and uplink
windows are registered as spectrum reservations in that order, the
`channel_setup` token is appended, and the node pairs are built. -/
def runScript (frequency : ℚ) (channel_bandwidth_str : String)
    (x310_radios : List String) (b210_nodes : List (String × String)) :
    RunResult :=
  let installs0 : List String := ["srslte", "gnuradio"]
  let centi_khz : ℤ := pyRound (frequency * 10)
  if centi_khz < 26200 then
    ⟨none, some (.OutOfBandFrequency "Too low of a downlink frequency for band 7"),
     [], installs0, []⟩
  else if centi_khz > 26899 then
    ⟨none, some (.OutOfBandFrequency "Too high of a downlink frequency for band 7"),
     [], installs0, []⟩
  else
    let earfcn : ℤ := centi_khz - 26200 + 2750
    match lookupProfile channel_bandwidth_str with
    | none => ⟨none, some (.UnknownChannelCode channel_bandwidth_str),
               [], installs0, []⟩
    | some p =>
      let low_downlink_frequency := frequency - p.bandwidth / 2
      let high_downlink_frequency := frequency + p.bandwidth / 2
      let low_uplink_frequency := frequency - p.bandwidth / 2 - 120
      let high_uplink_frequency := frequency + p.bandwidth / 2 - 120
      let token := "channel_setup-" ++ toString p.n_prb ++ "-" ++
        toString earfcn ++ "-" ++ tenthsStr p.ul_amp ++ "-" ++
        tenthsStr p.dl_gain
      ⟨some ⟨earfcn, p.n_prb, p.ul_amp, p.dl_gain,
             low_downlink_frequency, high_downlink_frequency,
             low_uplink_frequency, high_uplink_frequency⟩,
       none,
       [(low_downlink_frequency, high_downlink_frequency, 0),
        (low_uplink_frequency, high_uplink_frequency, 0)],
       installs0 ++ [token],
       x310_radios.flatMap x310_node_pair_nodes ++
         b210_nodes.map (fun nb => b210_nuc_pair_node_name nb.1 nb.2)⟩

/-- `centi_khz` at the hardcoded frequency 2685.0 MHz. -/
theorem pyRound_downlink : pyRound (downlink_frequency * 10) = 26850 := by
  with_unfolding_all decide

theorem pyRound_2619_99 : pyRound ((2619.99 : ℚ) * 10) = 26200 := by
  with_unfolding_all decide

theorem pyRound_2619_9 : pyRound ((2619.9 : ℚ) * 10) = 26199 := by
  with_unfolding_all decide

theorem pyRound_2689_9 : pyRound ((2689.9 : ℚ) * 10) = 26899 := by
  with_unfolding_all decide

theorem pyRound_2690 : pyRound ((2690.0 : ℚ) * 10) = 26900 := by
  with_unfolding_all decide

theorem lookupProfile_5 : lookupProfile "5" = some ⟨25, 5, 0.5, 0.20⟩ := rfl

theorem tenthsStr_ul_amp : tenthsStr (1/2) = "0.5" := by
  with_unfolding_all decide

theorem tenthsStr_dl_gain : tenthsStr (1/5) = "0.2" := by
  with_unfolding_all decide

/-- If the rounded hundredths-of-kHz value is below the band-7 lower edge,
the script raises the low-frequency exception with nothing registered. -/
theorem runScript_oob_low (f : ℚ) (code : String) (xs : List String)
    (bs : List (String × String)) (h1 : pyRound (f * 10) < 26200) :
    runScript f code xs bs =
      ⟨none, some (.OutOfBandFrequency "Too low of a downlink frequency for band 7"),
       [], ["srslte", "gnuradio"], []⟩ := by
  simp [runScript, h1]

/-- If the rounded hundredths-of-kHz value is above the band-7 upper edge,
the script raises the high-frequency exception with nothing registered. -/
theorem runScript_oob_high (f : ℚ) (code : String) (xs : List String)
    (bs : List (String × String)) (h1 : ¬ pyRound (f * 10) < 26200)
    (h2 : pyRound (f * 10) > 26899) :
    runScript f code xs bs =
      ⟨none, some (.OutOfBandFrequency "Too high of a downlink frequency for band 7"),
       [], ["srslte", "gnuradio"], []⟩ := by
  simp [runScript, h1, h2]

/-- In band, the only possible error is the unknown-code one. -/
theorem runScript_inband_error (f : ℚ) (code : String) (xs : List String)
    (bs : List (String × String)) (h1 : ¬ pyRound (f * 10) < 26200)
    (h2 : ¬ pyRound (f * 10) > 26899) :
    (runScript f code xs bs).error = none ∨
    (runScript f code xs bs).error = some (.UnknownChannelCode code) := by
  cases hp : lookupProfile code with
  | none => right; simp [runScript, h1, h2, hp]
  | some p => left; simp [runScript, h1, h2, hp]

/-- Evaluation of the success branch: with an in-band frequency and a code
present in the table, the run result is the record computed on lines
283-301 of `profile.py`. -/
theorem runScript_ok (f : ℚ) (code : String) (xs : List String)
    (bs : List (String × String)) (p : ChannelProfile)
    (hp : lookupProfile code = some p) (h1 : ¬ pyRound (f * 10) < 26200)
    (h2 : ¬ pyRound (f * 10) > 26899) :
    runScript f code xs bs =
      ⟨some ⟨pyRound (f * 10) - 26200 + 2750, p.n_prb, p.ul_amp, p.dl_gain,
             f - p.bandwidth / 2, f + p.bandwidth / 2,
             f - p.bandwidth / 2 - 120, f + p.bandwidth / 2 - 120⟩,
       none,
       [(f - p.bandwidth / 2, f + p.bandwidth / 2, 0),
        (f - p.bandwidth / 2 - 120, f + p.bandwidth / 2 - 120, 0)],
       ["srslte", "gnuradio",
        "channel_setup-" ++ toString p.n_prb ++ "-" ++
          toString (pyRound (f * 10) - 26200 + 2750) ++ "-" ++
          tenthsStr p.ul_amp ++ "-" ++ tenthsStr p.dl_gain],
       xs.flatMap x310_node_pair_nodes ++
         bs.map (fun nb => b210_nuc_pair_node_name nb.1 nb.2)⟩ := by
  simp [runScript, h1, h2, hp]

/-- Success-case characterisation: whenever a run produces a configuration,
the frequency was in band, the code was in the table, and the whole run
result is the record computed on lines 283-301 of `profile.py`. -/
theorem runScript_config_some (f : ℚ) (code : String) (xs : List String)
    (bs : List (String × String)) (cfg : DerivedConfig)
    (h : (runScript f code xs bs).config = some cfg) :
    ∃ p, lookupProfile code = some p ∧
      26200 ≤ pyRound (f * 10) ∧ pyRound (f * 10) ≤ 26899 ∧
      cfg = ⟨pyRound (f * 10) - 26200 + 2750, p.n_prb, p.ul_amp, p.dl_gain,
             f - p.bandwidth / 2, f + p.bandwidth / 2,
             f - p.bandwidth / 2 - 120, f + p.bandwidth / 2 - 120⟩ ∧
      runScript f code xs bs =
        ⟨some cfg, none,
         [(f - p.bandwidth / 2, f + p.bandwidth / 2, 0),
          (f - p.bandwidth / 2 - 120, f + p.bandwidth / 2 - 120, 0)],
         ["srslte", "gnuradio",
          "channel_setup-" ++ toString p.n_prb ++ "-" ++
            toString (pyRound (f * 10) - 26200 + 2750) ++ "-" ++
            tenthsStr p.ul_amp ++ "-" ++ tenthsStr p.dl_gain],
         xs.flatMap x310_node_pair_nodes ++
           bs.map (fun nb => b210_nuc_pair_node_name nb.1 nb.2)⟩ := by
  by_cases h1 : pyRound (f * 10) < 26200
  · rw [runScript_oob_low f code xs bs h1] at h
    simp at h
  · by_cases h2 : pyRound (f * 10) > 26899
    · rw [runScript_oob_high f code xs bs h1 h2] at h
      simp at h
    · cases hp : lookupProfile code with
      | none => simp [runScript, h1, h2, hp] at h
      | some p =>
        rw [runScript_ok f code xs bs p hp h1 h2] at h
        simp at h
        subst h
        exact ⟨p, rfl, by omega, by omega, rfl,
          runScript_ok f code xs bs p hp h1 h2⟩

/-- Full evaluation of the script at its hardcoded frequency with the
default bandwidth code "5" and no radios requested. -/
theorem runScript_downlink_5 :
    runScript downlink_frequency "5" [] [] =
      ⟨some ⟨3400, 25, 0.5, 0.20, 2682.5, 2687.5, 2562.5, 2567.5⟩,
       none,
       [(2682.5, 2687.5, 0), (2562.5, 2567.5, 0)],
       ["srslte", "gnuradio", "channel_setup-25-3400-0.5-0.2"],
       []⟩ := by
  rw [runScript_ok downlink_frequency "5" [] [] ⟨25, 5, 0.5, 0.20⟩
      lookupProfile_5 (by rw [pyRound_downlink]; decide)
      (by rw [pyRound_downlink]; decide), pyRound_downlink]
  norm_num [downlink_frequency, tenthsStr_ul_amp, tenthsStr_dl_gain,
    RunResult.mk.injEq, DerivedConfig.mk.injEq]
  with_unfolding_all decide

/-- C1: for every downlink frequency that passes band validation, the
derived EARFCN equals `round(frequency_MHz * 10) - 26200 + 2750`; in
particular at the fixed 2685.0 MHz, `centi_khz = 26850` and
`earfcn = 3400`. -/
theorem earfcn_formula (f : ℚ) (code : String) (xs : List String)
    (bs : List (String × String)) (cfg : DerivedConfig)
    (h : (runScript f code xs bs).config = some cfg) :
    cfg.earfcn = pyRound (f * 10) - 26200 + 2750 ∧
    pyRound (downlink_frequency * 10) = 26850 ∧
    (runScript downlink_frequency "5" [] []).config.map DerivedConfig.earfcn =
      some 3400 := by
  obtain ⟨p, hp, hlo, hhi, hcfg, hrun⟩ := runScript_config_some f code xs bs cfg h
  refine ⟨by rw [hcfg], pyRound_downlink, ?_⟩
  rw [runScript_downlink_5]
  rfl

theorem earfcn_formula_witness :
    (⟨3400, 25, 0.5, 0.20, 2682.5, 2687.5, 2562.5, 2567.5⟩ :
        DerivedConfig).earfcn = pyRound (downlink_frequency * 10) - 26200 + 2750 ∧
    pyRound (downlink_frequency * 10) = 26850 ∧
    (runScript downlink_frequency "5" [] []).config.map DerivedConfig.earfcn =
      some 3400 :=
  earfcn_formula downlink_frequency "5" [] []
    ⟨3400, 25, 0.5, 0.20, 2682.5, 2687.5, 2562.5, 2567.5⟩
    (by rw [runScript_downlink_5])

/-- C2: the run fails with `OutOfBandFrequency` if and only if
`round(f * 10)` is strictly below 26200 or strictly above 26899, and when
it so fails nothing has been registered: no spectrum reservation and no
node. -/
theorem out_of_band_iff (f : ℚ) (code : String) (xs : List String)
    (bs : List (String × String)) :
    ((∃ m, (runScript f code xs bs).error =
        some (ConfigError.OutOfBandFrequency m)) ↔
      (pyRound (f * 10) < 26200 ∨ pyRound (f * 10) > 26899)) ∧
    (∀ m, (runScript f code xs bs).error =
        some (ConfigError.OutOfBandFrequency m) →
      (runScript f code xs bs).reservations = [] ∧
      (runScript f code xs bs).nodes = []) := by
  by_cases h1 : pyRound (f * 10) < 26200
  · rw [runScript_oob_low f code xs bs h1]
    exact ⟨⟨fun _ => Or.inl h1, fun _ => ⟨_, rfl⟩⟩, fun m _ => ⟨rfl, rfl⟩⟩
  · by_cases h2 : pyRound (f * 10) > 26899
    · rw [runScript_oob_high f code xs bs h1 h2]
      exact ⟨⟨fun _ => Or.inr h2, fun _ => ⟨_, rfl⟩⟩, fun m _ => ⟨rfl, rfl⟩⟩
    · constructor
      · constructor
        · rintro ⟨m, hm⟩
          rcases runScript_inband_error f code xs bs h1 h2 with he | he <;>
            rw [he] at hm <;> simp at hm
        · rintro (hc | hc)
          · exact absurd hc h1
          · exact absurd hc h2
      · intro m hm
        rcases runScript_inband_error f code xs bs h1 h2 with he | he <;>
          rw [he] at hm <;> simp at hm

theorem out_of_band_iff_witness :
    ((∃ m, (runScript 2690.0 "5" [] []).error =
        some (ConfigError.OutOfBandFrequency m)) ↔
      (pyRound ((2690.0 : ℚ) * 10) < 26200 ∨
        pyRound ((2690.0 : ℚ) * 10) > 26899)) ∧
    (∀ m, (runScript 2690.0 "5" [] []).error =
        some (ConfigError.OutOfBandFrequency m) →
      (runScript 2690.0 "5" [] []).reservations = [] ∧
      (runScript 2690.0 "5" [] []).nodes = []) :=
  out_of_band_iff 2690.0 "5" [] []

/-- C3: rounding decides the band boundary: 2619.99 MHz (rounds to 26200)
is accepted with earfcn 2750; 2619.9 MHz (26199) is rejected low; 2689.9
MHz (26899) is accepted with earfcn 3449; 2690.0 MHz (26900) is rejected
high. -/
theorem band_boundary_rounding :
    ((runScript 2619.99 "5" [] []).config.map DerivedConfig.earfcn =
      some 2750) ∧
    ((runScript 2619.9 "5" [] []).error =
      some (ConfigError.OutOfBandFrequency
        "Too low of a downlink frequency for band 7")) ∧
    ((runScript 2689.9 "5" [] []).config.map DerivedConfig.earfcn =
      some 3449) ∧
    ((runScript 2690.0 "5" [] []).error =
      some (ConfigError.OutOfBandFrequency
        "Too high of a downlink frequency for band 7")) := by
  refine ⟨?_, ?_, ?_, ?_⟩
  · rw [runScript_ok 2619.99 "5" [] [] ⟨25, 5, 0.5, 0.20⟩ lookupProfile_5
        (by rw [pyRound_2619_99]; decide) (by rw [pyRound_2619_99]; decide)]
    simp [pyRound_2619_99]
  · rw [runScript_oob_low 2619.9 "5" [] [] (by rw [pyRound_2619_9]; decide)]
  · rw [runScript_ok 2689.9 "5" [] [] ⟨25, 5, 0.5, 0.20⟩ lookupProfile_5
        (by rw [pyRound_2689_9]; decide) (by rw [pyRound_2689_9]; decide)]
    simp [pyRound_2689_9]
  · rw [runScript_oob_high 2690.0 "5" [] [] (by rw [pyRound_2690]; decide)
        (by rw [pyRound_2690]; decide)]

/-- C4: in every accepted configuration the uplink window sits exactly
120 MHz below the downlink window. -/
theorem uplink_duplex_offset (f : ℚ) (code : String) (xs : List String)
    (bs : List (String × String)) (cfg : DerivedConfig)
    (h : (runScript f code xs bs).config = some cfg) :
    cfg.low_uplink_frequency = cfg.low_downlink_frequency - 120 ∧
    cfg.high_uplink_frequency = cfg.high_downlink_frequency - 120 := by
  obtain ⟨p, hp, hlo, hhi, hcfg, hrun⟩ := runScript_config_some f code xs bs cfg h
  subst hcfg
  exact ⟨rfl, rfl⟩

theorem uplink_duplex_offset_witness :
    (⟨3400, 25, 0.5, 0.20, 2682.5, 2687.5, 2562.5, 2567.5⟩ :
        DerivedConfig).low_uplink_frequency =
      (⟨3400, 25, 0.5, 0.20, 2682.5, 2687.5, 2562.5, 2567.5⟩ :
        DerivedConfig).low_downlink_frequency - 120 ∧
    (⟨3400, 25, 0.5, 0.20, 2682.5, 2687.5, 2562.5, 2567.5⟩ :
        DerivedConfig).high_uplink_frequency =
      (⟨3400, 25, 0.5, 0.20, 2682.5, 2687.5, 2562.5, 2567.5⟩ :
        DerivedConfig).high_downlink_frequency - 120 :=
  uplink_duplex_offset downlink_frequency "5" [] []
    ⟨3400, 25, 0.5, 0.20, 2682.5, 2687.5, 2562.5, 2567.5⟩
    (by rw [runScript_downlink_5])

/-- C5: in every accepted configuration the downlink window has width equal
to the selected profile's bandwidth and is centred on the requested
frequency; for code "5" at 2685.0 MHz the resource-block count is 25 and
the window is exactly [2682.5, 2687.5]. -/
theorem downlink_window_width (f : ℚ) (code : String) (xs : List String)
    (bs : List (String × String)) (p : ChannelProfile) (cfg : DerivedConfig)
    (hp : lookupProfile code = some p)
    (h : (runScript f code xs bs).config = some cfg) :
    cfg.high_downlink_frequency - cfg.low_downlink_frequency = p.bandwidth ∧
    cfg.low_downlink_frequency = f - p.bandwidth / 2 ∧
    cfg.high_downlink_frequency = f + p.bandwidth / 2 ∧
    ((runScript downlink_frequency "5" [] []).config.map
        (fun c => (c.n_prb, c.low_downlink_frequency,
          c.high_downlink_frequency)) = some (25, 2682.5, 2687.5)) := by
  obtain ⟨p', hp', hlo, hhi, hcfg, hrun⟩ := runScript_config_some f code xs bs cfg h
  rw [hp] at hp'
  injection hp' with hpp
  subst hpp
  subst hcfg
  refine ⟨by ring, rfl, rfl, ?_⟩
  rw [runScript_downlink_5]
  rfl

theorem downlink_window_width_witness :
    (⟨3400, 25, 0.5, 0.20, 2682.5, 2687.5, 2562.5, 2567.5⟩ :
        DerivedConfig).high_downlink_frequency -
      (⟨3400, 25, 0.5, 0.20, 2682.5, 2687.5, 2562.5, 2567.5⟩ :
        DerivedConfig).low_downlink_frequency =
      (⟨25, 5, 0.5, 0.20⟩ : ChannelProfile).bandwidth ∧
    (⟨3400, 25, 0.5, 0.20, 2682.5, 2687.5, 2562.5, 2567.5⟩ :
        DerivedConfig).low_downlink_frequency =
      downlink_frequency - (⟨25, 5, 0.5, 0.20⟩ : ChannelProfile).bandwidth / 2 ∧
    (⟨3400, 25, 0.5, 0.20, 2682.5, 2687.5, 2562.5, 2567.5⟩ :
        DerivedConfig).high_downlink_frequency =
      downlink_frequency + (⟨25, 5, 0.5, 0.20⟩ : ChannelProfile).bandwidth / 2 ∧
    ((runScript downlink_frequency "5" [] []).config.map
        (fun c => (c.n_prb, c.low_downlink_frequency,
          c.high_downlink_frequency)) = some (25, 2682.5, 2687.5)) :=
  downlink_window_width downlink_frequency "5" [] [] ⟨25, 5, 0.5, 0.20⟩
    ⟨3400, 25, 0.5, 0.20, 2682.5, 2687.5, 2562.5, 2567.5⟩
    lookupProfile_5 (by rw [runScript_downlink_5])

/-- C6: for every bandwidth selector string that is not a key of the static
profile table, the run at the hardcoded frequency aborts with the
unknown-code error, with no spectrum reservation registered, no install
token produced, and no node added. -/
theorem unknown_code_aborts (code : String) (xs : List String)
    (bs : List (String × String)) (hp : lookupProfile code = none) :
    runScript downlink_frequency code xs bs =
      ⟨none, some (ConfigError.UnknownChannelCode code), [],
       ["srslte", "gnuradio"], []⟩ := by
  have h1 : ¬ pyRound (downlink_frequency * 10) < 26200 := by
    rw [pyRound_downlink]; decide
  have h2 : ¬ pyRound (downlink_frequency * 10) > 26899 := by
    rw [pyRound_downlink]; decide
  simp [runScript, h1, h2, hp]

theorem unknown_code_aborts_witness :
    runScript downlink_frequency "7" [] [] =
      ⟨none, some (ConfigError.UnknownChannelCode "7"), [],
       ["srslte", "gnuradio"], []⟩ :=
  unknown_code_aborts "7" [] [] (by decide)

/-- C7: in every accepted configuration the install token appended to the
install list is exactly
`channel_setup-{n_prb}-{earfcn}-{ul_amp}-{dl_gain}`; concretely the install
list at the fixed frequency with code "5" ends with
`channel_setup-25-3400-0.5-0.2`. -/
theorem install_token_format (f : ℚ) (code : String) (xs : List String)
    (bs : List (String × String)) (cfg : DerivedConfig)
    (h : (runScript f code xs bs).config = some cfg) :
    (runScript f code xs bs).installs =
      ["srslte", "gnuradio",
       "channel_setup-" ++ toString cfg.n_prb ++ "-" ++ toString cfg.earfcn ++
         "-" ++ tenthsStr cfg.ul_amp ++ "-" ++ tenthsStr cfg.dl_gain] ∧
    (runScript downlink_frequency "5" [] []).installs =
      ["srslte", "gnuradio", "channel_setup-25-3400-0.5-0.2"] := by
  obtain ⟨p, hp, hlo, hhi, hcfg, hrun⟩ := runScript_config_some f code xs bs cfg h
  subst hcfg
  exact ⟨by rw [hrun], by rw [runScript_downlink_5]⟩

theorem install_token_format_witness :
    (runScript downlink_frequency "5" [] []).installs =
      ["srslte", "gnuradio",
       "channel_setup-" ++
         toString (⟨3400, 25, 0.5, 0.20, 2682.5, 2687.5, 2562.5, 2567.5⟩ :
           DerivedConfig).n_prb ++ "-" ++
         toString (⟨3400, 25, 0.5, 0.20, 2682.5, 2687.5, 2562.5, 2567.5⟩ :
           DerivedConfig).earfcn ++ "-" ++
         tenthsStr (⟨3400, 25, 0.5, 0.20, 2682.5, 2687.5, 2562.5, 2567.5⟩ :
           DerivedConfig).ul_amp ++ "-" ++
         tenthsStr (⟨3400, 25, 0.5, 0.20, 2682.5, 2687.5, 2562.5, 2567.5⟩ :
           DerivedConfig).dl_gain] ∧
    (runScript downlink_frequency "5" [] []).installs =
      ["srslte", "gnuradio", "channel_setup-25-3400-0.5-0.2"] :=
  install_token_format downlink_frequency "5" [] []
    ⟨3400, 25, 0.5, 0.20, 2682.5, 2687.5, 2562.5, 2567.5⟩
    (by rw [runScript_downlink_5])

/-- C8: in every accepted configuration exactly two spectrum reservations
are registered, the downlink window first and the uplink window second,
the run raises no error, and the nodes added are exactly those dictated by
the radio parameters (the derivation itself adds none). -/
theorem spectrum_reservations_exact (f : ℚ) (code : String)
    (xs : List String) (bs : List (String × String)) (cfg : DerivedConfig)
    (h : (runScript f code xs bs).config = some cfg) :
    (runScript f code xs bs).reservations =
      [(cfg.low_downlink_frequency, cfg.high_downlink_frequency, 0),
       (cfg.low_uplink_frequency, cfg.high_uplink_frequency, 0)] ∧
    (runScript f code xs bs).error = none ∧
    (runScript f code xs bs).nodes =
      xs.flatMap x310_node_pair_nodes ++
        bs.map (fun nb => b210_nuc_pair_node_name nb.1 nb.2) := by
  obtain ⟨p, hp, hlo, hhi, hcfg, hrun⟩ := runScript_config_some f code xs bs cfg h
  subst hcfg
  exact ⟨by rw [hrun], by rw [hrun], by rw [hrun]⟩

theorem spectrum_reservations_exact_witness :
    (runScript downlink_frequency "5" [] []).reservations =
      [((⟨3400, 25, 0.5, 0.20, 2682.5, 2687.5, 2562.5, 2567.5⟩ :
          DerivedConfig).low_downlink_frequency,
        (⟨3400, 25, 0.5, 0.20, 2682.5, 2687.5, 2562.5, 2567.5⟩ :
          DerivedConfig).high_downlink_frequency, 0),
       ((⟨3400, 25, 0.5, 0.20, 2682.5, 2687.5, 2562.5, 2567.5⟩ :
          DerivedConfig).low_uplink_frequency,
        (⟨3400, 25, 0.5, 0.20, 2682.5, 2687.5, 2562.5, 2567.5⟩ :
          DerivedConfig).high_uplink_frequency, 0)] ∧
    (runScript downlink_frequency "5" [] []).error = none ∧
    (runScript downlink_frequency "5" [] []).nodes =
      List.flatMap ([] : List String) x310_node_pair_nodes ++
        List.map (fun nb : String × String => b210_nuc_pair_node_name nb.1 nb.2)
          ([] : List (String × String)) :=
  spectrum_reservations_exact downlink_frequency "5" [] []
    ⟨3400, 25, 0.5, 0.20, 2682.5, 2687.5, 2562.5, 2567.5⟩
    (by rw [runScript_downlink_5])

/-- C9 counterexample: the code "15" is in the claimed enumerated set and is
a key of the static profile table, yet it is not an offered selector
choice, so the claim that every code of {1.4, 3, 5, 10, 15, 20} is both
offered and a table key is false. -/
theorem bandwidth_codes_counterexample :
    "15" ∈ channel_bandwidths.map Prod.fst ∧
    "15" ∉ channel_bandwidth_strings.map Prod.fst := by decide

/-- C9 amended: the static profile table's keys are exactly
{1.4, 3, 5, 10, 15, 20}, but the offered selector choices are exactly
{1.4, 3, 5, 10}; the codes 15 and 20 are table keys without being offered
choices. -/
theorem bandwidth_codes_amended :
    channel_bandwidths.map Prod.fst = ["1.4", "3", "5", "10", "15", "20"] ∧
    channel_bandwidth_strings.map Prod.fst = ["1.4", "3", "5", "10"] := by
  decide

/-- C10: with the downlink frequency hardcoded to 2685.0 MHz, `centi_khz`
always evaluates to 26850 and both out-of-band branches are unreachable:
every run either succeeds or fails with the unknown-code error, never with
an out-of-band error. -/
theorem fixed_frequency_in_band (code : String) (xs : List String)
    (bs : List (String × String)) :
    pyRound (downlink_frequency * 10) = 26850 ∧
    ((runScript downlink_frequency code xs bs).error = none ∨
     (runScript downlink_frequency code xs bs).error =
       some (ConfigError.UnknownChannelCode code)) :=
  ⟨pyRound_downlink,
   runScript_inband_error downlink_frequency code xs bs
     (by rw [pyRound_downlink]; decide) (by rw [pyRound_downlink]; decide)⟩

theorem fixed_frequency_in_band_witness :
    pyRound (downlink_frequency * 10) = 26850 ∧
    ((runScript downlink_frequency "5" [] []).error = none ∨
     (runScript downlink_frequency "5" [] []).error =
       some (ConfigError.UnknownChannelCode "5")) :=
  fixed_frequency_in_band "5" [] []

end OtaSrslte
